import Mathlib

/-!
Shallow embedding of the gaze/engagement detector from
`src/gaze_tracking.py` (class `ScreenEngagementDetector`).

Modelling conventions:
* Machine floats are modelled by an arbitrary `LinearOrderedField K`
  (instantiated at `ℚ` for executable witnesses and at `ℝ` where the
  mathematics needs square roots); wall-clock timestamps (`time.time()`
  values, only compared and subtracted) are modelled as `ℚ` and passed
  explicitly to the functions that read the clock.
* `numpy.sqrt`-based norms and `arccos` are threaded through as explicit
  function parameters `sqt`/`acs`; theorems about unit length instantiate
  `sqt := Real.sqrt`.
* The external facial-landmark provider (MediaPipe) and the numeric
  eigendecomposition kernel (`np.linalg.eigh` + descending `argsort`) are
  inputs: a frame observation carries the landmark set and the sorted
  eigenvector basis of the nose-point covariance.  The scipy Euler-angle
  round trip `from_euler('zyx', as_euler('zyx', R))` is the identity on
  rotation matrices in exact arithmetic and is modelled as such.
-/

namespace GazeTrack

/-- Embeds `class GazeState(Enum)` from `gaze_tracking.py`. -/
inductive GazeState where
  | ENGAGED
  | DISENGAGED
  | TRANSITIONING
deriving DecidableEq, Repr

/-- A 3-component vector over a scalar field, modelling a numpy length-3 array. -/
structure Vec3 (K : Type) where
  x : K
  y : K
  z : K
deriving DecidableEq, Repr

namespace Vec3

variable {K : Type} [LinearOrderedField K]

instance : Add (Vec3 K) := ⟨fun a b => ⟨a.x + b.x, a.y + b.y, a.z + b.z⟩⟩
instance : Sub (Vec3 K) := ⟨fun a b => ⟨a.x - b.x, a.y - b.y, a.z - b.z⟩⟩
instance : Zero (Vec3 K) := ⟨⟨0, 0, 0⟩⟩
instance : SMul K (Vec3 K) := ⟨fun c a => ⟨c * a.x, c * a.y, c * a.z⟩⟩

end Vec3

/-- Euclidean dot product of two `Vec3`s (`np.dot`). -/
def dot3 {K : Type} [LinearOrderedField K] (a b : Vec3 K) : K :=
  a.x * b.x + a.y * b.y + a.z * b.z

/-- A 3×3 matrix over the scalar field. -/
abbrev Mat3 (K : Type) := Matrix (Fin 3) (Fin 3) K

/-- Matrix–vector product `M @ v` restricted to `Vec3`. -/
def mulVec3 {K : Type} [LinearOrderedField K] (M : Mat3 K) (v : Vec3 K) : Vec3 K :=
  ⟨M 0 0 * v.x + M 0 1 * v.y + M 0 2 * v.z,
   M 1 0 * v.x + M 1 1 * v.y + M 1 2 * v.z,
   M 2 0 * v.x + M 2 1 * v.y + M 2 2 * v.z⟩

/-- Constant `self.base_radius = 20` set in `__init__`. -/
def base_radius : ℚ := 20

/-- Constant `self.ENGAGEMENT_ANGLE_THRESHOLD = 5.0`. -/
def ENGAGEMENT_ANGLE_THRESHOLD : ℚ := 5

/-- Constant `self.ENGAGEMENT_TIME_THRESHOLD = 1.0`. -/
def ENGAGEMENT_TIME_THRESHOLD : ℚ := 1

/-- Constant `self.DISENGAGEMENT_TIME_THRESHOLD = 0.5`. -/
def DISENGAGEMENT_TIME_THRESHOLD : ℚ := 1/2

/-- The mutable instance state of `ScreenEngagementDetector`, as set up by
`_init_calibration_vars`, `_init_gaze_tracking_vars` and
`_init_engagement_vars`.  Geometry lives over `K`; timestamps over `ℚ`. -/
structure DetectorState (K : Type) where
  left_sphere_locked : Bool
  right_sphere_locked : Bool
  left_sphere_local_offset : Option (Vec3 K)
  right_sphere_local_offset : Option (Vec3 K)
  left_calibration_nose_scale : Option K
  right_calibration_nose_scale : Option K
  R_ref_nose : Option (Mat3 K)
  gaze_history : List (Vec3 K)
  state : GazeState
  state_change_time : Option ℚ

/-- The freshly constructed detector (`__init__`). -/
def initState (K : Type) : DetectorState K :=
  { left_sphere_locked := false
    right_sphere_locked := false
    left_sphere_local_offset := none
    right_sphere_local_offset := none
    left_calibration_nose_scale := none
    right_calibration_nose_scale := none
    R_ref_nose := none
    gaze_history := []
    state := GazeState.DISENGAGED
    state_change_time := none }

/-- Embeds `_should_change_state(self, current_time, is_engaging)`. -/
def should_change_state {K : Type} (s : DetectorState K) (current_time : ℚ)
    (is_engaging : Bool) : Bool :=
  match s.state_change_time with
  | none => false
  | some t0 =>
      decide (current_time - t0 ≥
        (if is_engaging then ENGAGEMENT_TIME_THRESHOLD else DISENGAGEMENT_TIME_THRESHOLD))

/-- Embeds `_handle_looking_at_screen(self, current_time)`. -/
def handle_looking_at_screen {K : Type} (s : DetectorState K) (current_time : ℚ) :
    DetectorState K :=
  if s.state = GazeState.DISENGAGED then
    match s.state_change_time with
    | none => { s with state_change_time := some current_time }
    | some _ =>
        if should_change_state s current_time true then
          { s with state := GazeState.ENGAGED, state_change_time := none }
        else s
  else if s.state = GazeState.TRANSITIONING then
    { s with state := GazeState.ENGAGED, state_change_time := none }
  else s

/-- Embeds `_handle_looking_away(self, current_time)`. -/
def handle_looking_away {K : Type} (s : DetectorState K) (current_time : ℚ) :
    DetectorState K :=
  if s.state = GazeState.ENGAGED then
    match s.state_change_time with
    | none => { s with state_change_time := some current_time }
    | some _ =>
        if should_change_state s current_time false then
          { s with state := GazeState.DISENGAGED, state_change_time := none }
        else s
  else if s.state = GazeState.TRANSITIONING then
    { s with state := GazeState.DISENGAGED, state_change_time := none }
  else s

/-- Embeds `update_engagement(self, is_looking_at_screen)`: `current_time` is the
`time.time()` reading taken inside the method; returns the updated state
together with the returned boolean `self.state == GazeState.ENGAGED`. -/
def update_engagement {K : Type} (s : DetectorState K) (is_looking_at_screen : Bool)
    (current_time : ℚ) : DetectorState K × Bool :=
  let s' := if is_looking_at_screen then handle_looking_at_screen s current_time
            else handle_looking_away s current_time
  (s', decide (s'.state = GazeState.ENGAGED))

/-- Fold a list of `(is_looking, timestamp)` calls through `update_engagement`. -/
def runUpdates {K : Type} (s : DetectorState K) (calls : List (Bool × ℚ)) :
    DetectorState K :=
  calls.foldl (fun st c => (update_engagement st c.1 c.2).1) s

section Geometry

variable {K : Type} [LinearOrderedField K]

/-- Embeds `self.nose_indices` from `_init_mediapipe`. -/
def nose_indices : List ℕ :=
  [4, 45, 275, 220, 440, 1, 5, 51, 281, 44, 274, 241,
   461, 125, 354, 218, 438, 195, 167, 393, 165, 391, 3, 248]

/-- Scale a normalized landmark to pixel space:
`[lm.x * w, lm.y * h, lm.z * w]`. -/
def scaleLandmark (lm : Vec3 K) (w h : K) : Vec3 K :=
  ⟨lm.x * w, lm.y * h, lm.z * w⟩

/-- Sum of a list of vectors (the reduction inside `np.mean(·, axis=0)`). -/
def vsum (l : List (Vec3 K)) : Vec3 K := l.foldr (· + ·) 0

/-- Embeds `np.mean(l, axis=0)`: componentwise mean of a list of vectors. -/
def vmean (l : List (Vec3 K)) : Vec3 K := (1 / (l.length : K)) • vsum l

/-- Embeds the distance list of `compute_scale(self, points_3d)`.  The inner
norms `np.linalg.norm(points_3d[i] - points_3d[j])` use the square root
`sqt` supplied by the numeric kernel. -/
def pairwiseDists (sqt : K → K) : List (Vec3 K) → List K
  | [] => []
  | p :: rest => rest.map (fun q => sqt (dot3 (p - q) (p - q))) ++ pairwiseDists sqt rest

/-- Embeds `compute_scale`: `total / count if count > 0 else 1.0`. -/
def compute_scale (sqt : K → K) (points_3d : List (Vec3 K)) : K :=
  let ds := pairwiseDists sqt points_3d
  if 0 < ds.length then (ds.foldr (· + ·) 0) / (ds.length : K) else 1

/-- Dot product of the `j`-th columns of `A` and `B`
(`np.dot(R_final[:, i], R_ref[:, i])`). -/
def colDot (A B : Mat3 K) (j : Fin 3) : K := ∑ k, A k j * B k j

/-- Negate column `j` of `A` (`eigvecs[:, 2] *= -1` / `R_final[:, i] *= -1`). -/
def flipCol (A : Mat3 K) (j : Fin 3) : Mat3 K :=
  fun i j' => if j' = j then -A i j' else A i j'

/-- Embeds `if np.linalg.det(eigvecs) < 0: eigvecs[:, 2] *= -1` — force a
right-handed basis. -/
def fixHandedness (A : Mat3 K) : Mat3 K :=
  if A.det < 0 then flipCol A 2 else A

/-- The per-column sign-stabilization loop of `compute_head_pose`: negate
every column whose dot product with the corresponding reference column is
negative.  Each column's test reads only that column, so the sequential
in-place loop equals this simultaneous definition. -/
def signStabilize (A R_ref : Mat3 K) : Mat3 K :=
  fun i j => if colDot A R_ref j < 0 then -A i j else A i j

/-- The rotation-matrix pipeline of `compute_head_pose`, starting from the
eigenvector basis returned by `np.linalg.eigh` sorted by descending
eigenvalue: handedness fix, Euler round trip (identity in exact
arithmetic), then either record the reference rotation (first face frame)
or sign-stabilize against it.  Returns the rotation handed back to the
caller together with the reference stored in `self.R_ref_nose`. -/
def compute_head_pose_R (eigvecs : Mat3 K) (r_ref : Option (Mat3 K)) :
    Mat3 K × Mat3 K :=
  let R_final := fixHandedness eigvecs
  match r_ref with
  | none => (R_final, R_final)
  | some R_ref => (signStabilize R_final R_ref, R_ref)

/-- One frame's face data as seen by the detector: the landmark set from
the external provider (indexed like `face_landmarks`), plus the sorted
orthonormal eigenvector basis of the nose-point covariance computed by
the external numeric kernel (`np.linalg.eigh` + descending `argsort`). -/
structure FaceObs (K : Type) where
  landmark : ℕ → Vec3 K
  eigvecs : Mat3 K

/-- Embeds `compute_head_pose(self, face_landmarks, w, h)`: builds the scaled
nose points, their centroid, and the stabilized rotation; stores the
reference rotation on the first face frame.  Returns (updated state,
head center, rotation, nose points). -/
def compute_head_pose (s : DetectorState K) (face : FaceObs K) (w h : K) :
    DetectorState K × Vec3 K × Mat3 K × List (Vec3 K) :=
  let points_3d := nose_indices.map (fun i => scaleLandmark (face.landmark i) w h)
  let center := vmean points_3d
  let (R_final, newRef) := compute_head_pose_R face.eigvecs s.R_ref_nose
  ({ s with R_ref_nose := some newRef }, center, R_final, points_3d)

/-- Embeds `calibrate(self, face_landmarks, head_center, R_final, nose_points_3d, w, h)`:
records both eyes' local offsets, the reference nose scale, and locks both
spheres.  Pure overwrite of the calibration fields. -/
def calibrate (sqt : K → K) (s : DetectorState K) (face : FaceObs K)
    (head_center : Vec3 K) (R_final : Mat3 K) (nose_points_3d : List (Vec3 K))
    (w h : K) : DetectorState K :=
  let current_nose_scale := compute_scale sqt nose_points_3d
  let iris_3d_left := scaleLandmark (face.landmark 468) w h
  let iris_3d_right := scaleLandmark (face.landmark 473) w h
  let camera_dir_local := mulVec3 R_final.transpose ⟨0, 0, 1⟩
  let off_l := mulVec3 R_final.transpose (iris_3d_left - head_center) +
               ((base_radius : ℚ) : K) • camera_dir_local
  let off_r := mulVec3 R_final.transpose (iris_3d_right - head_center) +
               ((base_radius : ℚ) : K) • camera_dir_local
  { s with
    left_sphere_local_offset := some off_l
    left_calibration_nose_scale := some current_nose_scale
    left_sphere_locked := true
    right_sphere_local_offset := some off_r
    right_calibration_nose_scale := some current_nose_scale
    right_sphere_locked := true }

/-- Embeds `v / np.linalg.norm(v)` with the norm taken through `sqt`. -/
def normalize3 (sqt : K → K) (v : Vec3 K) : Vec3 K :=
  (1 / sqt (dot3 v v)) • v

/-- Embeds `self.gaze_history.append(v)` on `deque(maxlen=10)`: append on the
right, evicting the oldest (leftmost) entry when already at capacity. -/
def pushGaze (h : List (Vec3 K)) (v : Vec3 K) : List (Vec3 K) :=
  if h.length < 10 then h ++ [v] else h.tail ++ [v]

/-- Embeds `_compute_gaze_direction(self, sphere_world_l, sphere_world_r,
iris_3d_left, iris_3d_right)`: per-eye unit gaze directions, their
renormalized average pushed into the history, and the renormalized history
mean.  Returns (new history, smoothed gaze, left dir, right dir). -/
def compute_gaze_direction (sqt : K → K) (history : List (Vec3 K))
    (sphere_world_l sphere_world_r iris_3d_left iris_3d_right : Vec3 K) :
    List (Vec3 K) × Vec3 K × Vec3 K × Vec3 K :=
  let left_gaze_dir := normalize3 sqt (iris_3d_left - sphere_world_l)
  let right_gaze_dir := normalize3 sqt (iris_3d_right - sphere_world_r)
  let combined_gaze := normalize3 sqt ((1/2 : K) • (left_gaze_dir + right_gaze_dir))
  let h' := pushGaze history combined_gaze
  let smoothed_gaze := normalize3 sqt (vmean h')
  (h', smoothed_gaze, left_gaze_dir, right_gaze_dir)

/-- Embeds `calculate_gaze_angle(self, gaze_direction)`:
`degrees(arccos(clip(dot(normalize(g), [0,0,-1]), -1, 1)))`, with the
degree-valued arccosine supplied as `acs`. -/
def calculate_gaze_angle (sqt acs : K → K) (gaze_direction : Vec3 K) : K :=
  acs (max (-1) (min 1 (dot3 (normalize3 sqt gaze_direction) ⟨0, 0, -1⟩)))

/-- Embeds `process_frame(self, frame)`: the full per-frame pipeline.  The frame
and the external face-mesh run are abstracted into `obs` (`none` when
`results.multi_face_landmarks` is empty); drawing calls touch only the
image and are dropped.  Returns (updated state, engaged, gaze angle). -/
def process_frame (sqt acs : K → K) (s : DetectorState K) (obs : Option (FaceObs K))
    (w h : K) (current_time : ℚ) : DetectorState K × Bool × Option K :=
  match obs with
  | none =>
      let (s', engaged) := update_engagement s false current_time
      (s', engaged, none)
  | some face =>
      let (s1, rest) := compute_head_pose s face w h
      let head_center := rest.1
      let R_final := rest.2.1
      let nose_points_3d := rest.2.2
      let iris_3d_left := scaleLandmark (face.landmark 468) w h
      let iris_3d_right := scaleLandmark (face.landmark 473) w h
      if ¬(s1.left_sphere_locked ∧ s1.right_sphere_locked) then
        let (s', engaged) := update_engagement s1 false current_time
        (s', engaged, none)
      else
        let current_nose_scale := compute_scale sqt nose_points_3d
        let scale_ratio_l := current_nose_scale / (s1.left_calibration_nose_scale.getD 1)
        let scale_ratio_r := current_nose_scale / (s1.right_calibration_nose_scale.getD 1)
        let sphere_world_l := head_center +
          mulVec3 R_final (scale_ratio_l • (s1.left_sphere_local_offset.getD 0))
        let sphere_world_r := head_center +
          mulVec3 R_final (scale_ratio_r • (s1.right_sphere_local_offset.getD 0))
        let g := compute_gaze_direction sqt s1.gaze_history sphere_world_l
                   sphere_world_r iris_3d_left iris_3d_right
        let s2 := { s1 with gaze_history := g.1 }
        let gaze_angle := calculate_gaze_angle sqt acs g.2.1
        let is_looking_at_screen := decide (gaze_angle < ((ENGAGEMENT_ANGLE_THRESHOLD : ℚ) : K))
        let (s3, engaged) := update_engagement s2 is_looking_at_screen current_time
        (s3, engaged, some gaze_angle)

/-- Run a list of `(observation, w, h, timestamp)` frames through
`process_frame` in order, collecting each call's `(engaged, gaze_angle)`
output. -/
def runFrames (sqt acs : K → K) (s : DetectorState K) :
    List (Option (FaceObs K) × K × K × ℚ) → DetectorState K × List (Bool × Option K)
  | [] => (s, [])
  | f :: rest =>
      let r := process_frame sqt acs s f.1 f.2.1 f.2.2.1 f.2.2.2
      let rr := runFrames sqt acs r.1 rest
      (rr.1, (r.2.1, r.2.2) :: rr.2)

/-- The calibration-owned portion of the detector state: both locked
flags, both local offsets, both reference scales. -/
def calibFields (s : DetectorState K) :
    Bool × Bool × Option (Vec3 K) × Option (Vec3 K) × Option K × Option K :=
  (s.left_sphere_locked, s.right_sphere_locked,
   s.left_sphere_local_offset, s.right_sphere_local_offset,
   s.left_calibration_nose_scale, s.right_calibration_nose_scale)

/-- The per-column sign chosen by the stabilization loop: `-1` when the
column is flipped, `1` otherwise.  Used to factor `signStabilize` as a
right-multiplication by a diagonal matrix. -/
def signVec (A R_ref : Mat3 K) : Fin 3 → K :=
  fun j => if colDot A R_ref j < 0 then -1 else 1

end Geometry

/-- A concrete orthonormal, determinant `+1` eigenvector basis (the
180°-rotation about the axis `(1,1,0)/√2`) for which the stabilization
loop against the identity reference flips exactly one column. -/
def oneFlipEigvecs : Mat3 ℚ := ![![0, 1, 0], ![1, 0, 0], ![0, 0, -1]]

namespace Vec3

variable {K : Type} [LinearOrderedField K]

@[simp] theorem mk_add_mk (a b c d e f : K) :
    (Vec3.mk a b c) + (Vec3.mk d e f) = ⟨a + d, b + e, c + f⟩ := rfl

@[simp] theorem mk_sub_mk (a b c d e f : K) :
    (Vec3.mk a b c) - (Vec3.mk d e f) = ⟨a - d, b - e, c - f⟩ := rfl

@[simp] theorem smul_mk (r a b c : K) :
    r • (Vec3.mk a b c) = ⟨r * a, r * b, r * c⟩ := rfl

@[simp] theorem zero_eq : (0 : Vec3 K) = ⟨0, 0, 0⟩ := rfl

end Vec3

section RotationLemmas

variable {K : Type} [LinearOrderedField K]

@[simp] theorem dot3_mk (a b c d e f : K) :
    dot3 (Vec3.mk a b c) (Vec3.mk d e f) = a * d + b * e + c * f := rfl

theorem signVec_pm (A R_ref : Mat3 K) (j : Fin 3) :
    signVec A R_ref j = 1 ∨ signVec A R_ref j = -1 := by
  unfold signVec; split
  · exact Or.inr rfl
  · exact Or.inl rfl

theorem signStabilize_eq_mul_diagonal (A R_ref : Mat3 K) :
    signStabilize A R_ref = A * Matrix.diagonal (signVec A R_ref) := by
  ext i j
  rw [Matrix.mul_diagonal]
  unfold signStabilize signVec
  split <;> ring

theorem flipCol_eq_mul_diagonal (A : Mat3 K) (j : Fin 3) :
    flipCol A j = A * Matrix.diagonal (fun k => if k = j then (-1 : K) else 1) := by
  ext i k
  rw [Matrix.mul_diagonal]
  unfold flipCol
  split <;> ring

theorem mul_diagonal_orthonormal {A : Mat3 K} {d : Fin 3 → K}
    (hA : A.transpose * A = 1) (hd : ∀ j, d j = 1 ∨ d j = -1) :
    (A * Matrix.diagonal d).transpose * (A * Matrix.diagonal d) = 1 := by
  have hdd : (fun i => d i * d i) = fun _ => (1 : K) := by
    funext j
    rcases hd j with h | h <;> simp [h]
  rw [Matrix.transpose_mul, Matrix.diagonal_transpose, Matrix.mul_assoc,
    ← Matrix.mul_assoc A.transpose, hA, Matrix.one_mul,
    Matrix.diagonal_mul_diagonal, hdd, Matrix.diagonal_one]

theorem det_of_orthonormal {A : Mat3 K} (hA : A.transpose * A = 1) :
    A.det = 1 ∨ A.det = -1 := by
  have h : A.det * A.det = 1 := by
    have h2 := congrArg Matrix.det hA
    rwa [Matrix.det_mul, Matrix.det_transpose, Matrix.det_one] at h2
  exact mul_self_eq_one_iff.mp h

theorem prod_signs {d : Fin 3 → K} (hd : ∀ j, d j = 1 ∨ d j = -1) :
    (∏ j, d j) = 1 ∨ (∏ j, d j) = -1 := by
  rw [Fin.prod_univ_three]
  rcases hd 0 with h0 | h0 <;> rcases hd 1 with h1 | h1 <;> rcases hd 2 with h2 | h2 <;>
    rw [h0, h1, h2] <;> norm_num

theorem fixHandedness_spec {A : Mat3 K} (hA : A.transpose * A = 1) :
    (fixHandedness A).transpose * fixHandedness A = 1 ∧ (fixHandedness A).det = 1 := by
  unfold fixHandedness
  rcases det_of_orthonormal hA with hd | hd
  · rw [if_neg (by rw [hd]; norm_num)]
    exact ⟨hA, hd⟩
  · rw [if_pos (by rw [hd]; norm_num)]
    rw [flipCol_eq_mul_diagonal]
    have hsg : ∀ k : Fin 3, (if k = (2 : Fin 3) then (-1 : K) else 1) = 1 ∨
        (if k = (2 : Fin 3) then (-1 : K) else 1) = -1 := by
      intro k
      split
      · exact Or.inr rfl
      · exact Or.inl rfl
    refine ⟨mul_diagonal_orthonormal hA hsg, ?_⟩
    rw [Matrix.det_mul, Matrix.det_diagonal, hd, Fin.prod_univ_three,
      if_neg (by decide), if_neg (by decide), if_pos rfl]
    norm_num

end RotationLemmas

/-- Claim C1 (amended): for every face frame, with the external
eigendecomposition returning an orthonormal basis, the rotation matrix
returned by `compute_head_pose` is orthonormal (`Rᵗ·R = I` exactly); its
determinant is `+1` on the first face frame (no stored reference) and is
`+1` or `−1` afterwards — the per-column sign-stabilization step can flip
an odd number of column axes, negating the determinant. -/
theorem C1_head_pose_rotation {K : Type} [LinearOrderedField K]
    (eigvecs : Mat3 K) (r_ref : Option (Mat3 K))
    (h : eigvecs.transpose * eigvecs = 1) :
    ((compute_head_pose_R eigvecs r_ref).1).transpose * (compute_head_pose_R eigvecs r_ref).1 = 1 ∧
    (((compute_head_pose_R eigvecs r_ref).1).det = 1 ∨
      ((compute_head_pose_R eigvecs r_ref).1).det = -1) ∧
    (r_ref = none → ((compute_head_pose_R eigvecs r_ref).1).det = 1) := by
  obtain ⟨ho, hdet⟩ := fixHandedness_spec h
  cases r_ref with
  | none =>
      exact ⟨ho, Or.inl hdet, fun _ => hdet⟩
  | some R_ref =>
      simp only [compute_head_pose_R]
      rw [signStabilize_eq_mul_diagonal]
      refine ⟨mul_diagonal_orthonormal ho (signVec_pm _ _), ?_, by simp⟩
      rw [Matrix.det_mul, Matrix.det_diagonal, hdet, one_mul]
      exact prod_signs (signVec_pm _ _)

/-- Witness for C1: the identity eigenvector basis on a first face frame
is orthonormal, and the returned rotation is orthonormal. -/
theorem C1_head_pose_rotation_witness :
    ((1 : Mat3 ℚ).transpose * 1 = 1) ∧
    ((compute_head_pose_R (1 : Mat3 ℚ) none).1).transpose *
      (compute_head_pose_R (1 : Mat3 ℚ) none).1 = 1 ∧
    ((compute_head_pose_R (1 : Mat3 ℚ) none).1).det = 1 := by
  have h : (1 : Mat3 ℚ).transpose * 1 = 1 := by
    rw [Matrix.transpose_one, Matrix.one_mul]
  obtain ⟨h1, _, h3⟩ := C1_head_pose_rotation (1 : Mat3 ℚ) none h
  exact ⟨h, h1, h3 rfl⟩

/-- Counterexample for C1 as stated: `oneFlipEigvecs` is an orthonormal
basis with determinant `+1`; against the identity reference rotation the
stabilization loop flips exactly its third column, and the rotation
returned by the head-pose pipeline has determinant `−1`, not `+1`. -/
theorem C1_counterexample :
    oneFlipEigvecs.transpose * oneFlipEigvecs = 1 ∧
    oneFlipEigvecs.det = 1 ∧
    ((compute_head_pose_R oneFlipEigvecs (some 1)).1).transpose *
      (compute_head_pose_R oneFlipEigvecs (some 1)).1 = 1 ∧
    ((compute_head_pose_R oneFlipEigvecs (some 1)).1).det = -1 := by
  have ho : oneFlipEigvecs.transpose * oneFlipEigvecs = 1 := by
    ext i j
    fin_cases i <;> fin_cases j <;>
      simp [oneFlipEigvecs, Matrix.mul_apply, Fin.sum_univ_three, Matrix.one_apply,
        Matrix.vecHead, Matrix.vecTail]
  have hR : (compute_head_pose_R oneFlipEigvecs (some 1)).1 =
      ![![0, 1, 0], ![1, 0, 0], ![0, 0, 1]] := by
    simp only [compute_head_pose_R, fixHandedness]
    rw [if_neg (by simp [oneFlipEigvecs, Matrix.det_fin_three])]
    ext i j
    fin_cases i <;> fin_cases j <;>
      simp [signStabilize, colDot, Fin.sum_univ_three, oneFlipEigvecs, Matrix.one_apply,
        Matrix.vecHead, Matrix.vecTail]
  refine ⟨ho, by simp [oneFlipEigvecs, Matrix.det_fin_three], ?_, ?_⟩
  · rw [hR]
    ext i j
    fin_cases i <;> fin_cases j <;>
      simp [Matrix.mul_apply, Fin.sum_univ_three, Matrix.one_apply,
        Matrix.vecHead, Matrix.vecTail]
  · rw [hR, Matrix.det_fin_three]
    simp [Matrix.vecHead, Matrix.vecTail]

section StateMachineLemmas

variable {K : Type}

theorem update_pending_start {s : DetectorState K} (t : ℚ)
    (hst : s.state = GazeState.DISENGAGED) (hp : s.state_change_time = none) :
    (update_engagement s true t).1 = { s with state_change_time := some t } := by
  simp [update_engagement, handle_looking_at_screen, hst, hp]

theorem update_true_stay {s : DetectorState K} {t0 t : ℚ}
    (hst : s.state = GazeState.DISENGAGED) (hp : s.state_change_time = some t0)
    (hlt : t - t0 < ENGAGEMENT_TIME_THRESHOLD) :
    (update_engagement s true t).1 = s := by
  have hc : should_change_state s t true = false := by
    simp only [should_change_state, hp, if_pos]
    simp [not_le.mpr hlt]
  simp [update_engagement, handle_looking_at_screen, hst, hp, hc]

theorem update_true_engage {s : DetectorState K} {t0 t : ℚ}
    (hst : s.state = GazeState.DISENGAGED) (hp : s.state_change_time = some t0)
    (hge : t - t0 ≥ ENGAGEMENT_TIME_THRESHOLD) :
    (update_engagement s true t).1 =
      { s with state := GazeState.ENGAGED, state_change_time := none } ∧
    (update_engagement s true t).2 = true := by
  have hc : should_change_state s t true = true := by
    simp only [should_change_state, hp, if_pos]
    simpa using hge
  constructor <;> simp [update_engagement, handle_looking_at_screen, hst, hp, hc]

theorem update_false_pending_start {s : DetectorState K} (t : ℚ)
    (hst : s.state = GazeState.ENGAGED) (hp : s.state_change_time = none) :
    (update_engagement s false t).1 = { s with state_change_time := some t } := by
  simp [update_engagement, handle_looking_away, hst, hp]

theorem update_false_stay {s : DetectorState K} {t0 t : ℚ}
    (hst : s.state = GazeState.ENGAGED) (hp : s.state_change_time = some t0)
    (hlt : t - t0 < DISENGAGEMENT_TIME_THRESHOLD) :
    (update_engagement s false t).1 = s := by
  have hc : should_change_state s t false = false := by
    simp only [should_change_state, hp, if_neg]
    simp [not_le.mpr hlt]
  simp [update_engagement, handle_looking_away, hst, hp, hc]

theorem update_false_disengage {s : DetectorState K} {t0 t : ℚ}
    (hst : s.state = GazeState.ENGAGED) (hp : s.state_change_time = some t0)
    (hge : t - t0 ≥ DISENGAGEMENT_TIME_THRESHOLD) :
    (update_engagement s false t).1 =
      { s with state := GazeState.DISENGAGED, state_change_time := none } ∧
    (update_engagement s false t).2 = false := by
  have hc : should_change_state s t false = true := by
    simp only [should_change_state, hp, if_neg]
    simpa using hge
  constructor <;> simp [update_engagement, handle_looking_away, hst, hp, hc]

theorem runUpdates_true_stay {t0 : ℚ} (ts : List ℚ) {s : DetectorState K}
    (hst : s.state = GazeState.DISENGAGED) (hp : s.state_change_time = some t0)
    (hts : ∀ u ∈ ts, u - t0 < ENGAGEMENT_TIME_THRESHOLD) :
    runUpdates s (ts.map fun u => (true, u)) = s := by
  induction ts with
  | nil => rfl
  | cons a l ih =>
      have h1 : (update_engagement s true a).1 = s :=
        update_true_stay hst hp (hts a (by simp))
      simp only [List.map_cons, runUpdates, List.foldl_cons]
      rw [h1]
      exact ih fun u hu => hts u (by simp [hu])

theorem runUpdates_false_stay {t0 : ℚ} (ts : List ℚ) {s : DetectorState K}
    (hst : s.state = GazeState.ENGAGED) (hp : s.state_change_time = some t0)
    (hts : ∀ u ∈ ts, u - t0 < DISENGAGEMENT_TIME_THRESHOLD) :
    runUpdates s (ts.map fun u => (false, u)) = s := by
  induction ts with
  | nil => rfl
  | cons a l ih =>
      have h1 : (update_engagement s false a).1 = s :=
        update_false_stay hst hp (hts a (by simp))
      simp only [List.map_cons, runUpdates, List.foldl_cons]
      rw [h1]
      exact ih fun u hu => hts u (by simp [hu])

theorem handle_at_shape (s : DetectorState K) (t : ℚ) :
    ∃ st p, handle_looking_at_screen s t =
      { s with state := st, state_change_time := p } := by
  unfold handle_looking_at_screen
  split
  · split
    · exact ⟨s.state, some t, rfl⟩
    · split
      · exact ⟨GazeState.ENGAGED, none, rfl⟩
      · exact ⟨s.state, s.state_change_time, rfl⟩
  · split
    · exact ⟨GazeState.ENGAGED, none, rfl⟩
    · exact ⟨s.state, s.state_change_time, rfl⟩

theorem handle_away_shape (s : DetectorState K) (t : ℚ) :
    ∃ st p, handle_looking_away s t =
      { s with state := st, state_change_time := p } := by
  unfold handle_looking_away
  split
  · split
    · exact ⟨s.state, some t, rfl⟩
    · split
      · exact ⟨GazeState.DISENGAGED, none, rfl⟩
      · exact ⟨s.state, s.state_change_time, rfl⟩
  · split
    · exact ⟨GazeState.DISENGAGED, none, rfl⟩
    · exact ⟨s.state, s.state_change_time, rfl⟩

theorem update_shape (s : DetectorState K) (b : Bool) (t : ℚ) :
    ∃ st p, (update_engagement s b t).1 =
      { s with state := st, state_change_time := p } := by
  cases b
  · exact handle_away_shape s t
  · exact handle_at_shape s t

theorem update_state_cases (s : DetectorState K) (b : Bool) (t : ℚ)
    (h : s.state = GazeState.ENGAGED ∨ s.state = GazeState.DISENGAGED) :
    (update_engagement s b t).1.state = GazeState.ENGAGED ∨
    (update_engagement s b t).1.state = GazeState.DISENGAGED := by
  rcases h with h | h <;> cases b <;>
    rcases hp : s.state_change_time with _ | t0 <;>
    simp [update_engagement, handle_looking_at_screen, handle_looking_away, h, hp] <;>
    (try split) <;> simp [h]

theorem update_false_keeps_disengaged (s : DetectorState K) (t : ℚ)
    (h : s.state = GazeState.DISENGAGED) :
    (update_engagement s false t).1.state = GazeState.DISENGAGED ∧
    (update_engagement s false t).2 = false := by
  simp [update_engagement, handle_looking_away, h]

end StateMachineLemmas

/-- Claim C2: starting `DISENGAGED` with no pending timestamp, a first
`is_looking=true` call at `t0` leaves the detector `DISENGAGED`; further
`true` calls strictly inside the 1.0 s window leave it `DISENGAGED`
(never engaged before the mark); the first `true` call at `t ≥ t0 + 1.0`
commits to `ENGAGED` and reports engagement. -/
theorem C2_engaged_after_one_second {K : Type} [LinearOrderedField K]
    (s : DetectorState K) (t0 t : ℚ) (ts : List ℚ)
    (hst : s.state = GazeState.DISENGAGED) (hp : s.state_change_time = none)
    (hts : ∀ u ∈ ts, u - t0 < ENGAGEMENT_TIME_THRESHOLD)
    (ht : t - t0 ≥ ENGAGEMENT_TIME_THRESHOLD) :
    (update_engagement s true t0).1.state = GazeState.DISENGAGED ∧
    (runUpdates (update_engagement s true t0).1 (ts.map fun u => (true, u))).state =
      GazeState.DISENGAGED ∧
    (update_engagement
      (runUpdates (update_engagement s true t0).1 (ts.map fun u => (true, u)))
      true t).1.state = GazeState.ENGAGED ∧
    (update_engagement
      (runUpdates (update_engagement s true t0).1 (ts.map fun u => (true, u)))
      true t).2 = true := by
  have h1 := update_pending_start t0 hst hp
  have hs1st : (update_engagement s true t0).1.state = GazeState.DISENGAGED := by
    rw [h1]; exact hst
  have hs1p : (update_engagement s true t0).1.state_change_time = some t0 := by
    rw [h1]
  have h2 := runUpdates_true_stay ts hs1st hs1p hts
  rw [h2]
  obtain ⟨he, hb⟩ := update_true_engage hs1st hs1p ht
  exact ⟨hs1st, hs1st, by rw [he], hb⟩

/-- Witness for C2: from the freshly initialized detector, a `true` call
at time 0 followed by one at time 1 engages exactly at the mark. -/
theorem C2_engaged_after_one_second_witness :
    (update_engagement
      (runUpdates (update_engagement (initState ℚ) true 0).1 ([].map fun u => (true, u)))
      true 1).1.state = GazeState.ENGAGED :=
  (C2_engaged_after_one_second (initState ℚ) 0 1 [] rfl rfl (by simp)
    (by simp [ENGAGEMENT_TIME_THRESHOLD])).2.2.1

/-- Claim C3: starting `ENGAGED` with no pending timestamp, a first
`is_looking=false` call at `t0` (which is also what a no-face frame feeds
the state machine, since `process_frame` with no detection runs
`update_engagement(False)`) leaves the state `ENGAGED`; further `false`
calls strictly inside the 0.5 s window leave it `ENGAGED`; the first
`false` call at `t ≥ t0 + 0.5` commits to `DISENGAGED`. -/
theorem C3_disengaged_after_half_second {K : Type} [LinearOrderedField K]
    (sqt acs : K → K) (s : DetectorState K) (t0 t : ℚ) (ts : List ℚ)
    (hst : s.state = GazeState.ENGAGED) (hp : s.state_change_time = none)
    (hts : ∀ u ∈ ts, u - t0 < DISENGAGEMENT_TIME_THRESHOLD)
    (ht : t - t0 ≥ DISENGAGEMENT_TIME_THRESHOLD) :
    (∀ (s' : DetectorState K) (w h : K) (u : ℚ),
      (process_frame sqt acs s' none w h u).1 = (update_engagement s' false u).1) ∧
    (update_engagement s false t0).1.state = GazeState.ENGAGED ∧
    (runUpdates (update_engagement s false t0).1 (ts.map fun u => (false, u))).state =
      GazeState.ENGAGED ∧
    (update_engagement
      (runUpdates (update_engagement s false t0).1 (ts.map fun u => (false, u)))
      false t).1.state = GazeState.DISENGAGED ∧
    (update_engagement
      (runUpdates (update_engagement s false t0).1 (ts.map fun u => (false, u)))
      false t).2 = false := by
  have h1 := update_false_pending_start t0 hst hp
  have hs1st : (update_engagement s false t0).1.state = GazeState.ENGAGED := by
    rw [h1]; exact hst
  have hs1p : (update_engagement s false t0).1.state_change_time = some t0 := by
    rw [h1]
  have h2 := runUpdates_false_stay ts hs1st hs1p hts
  rw [h2]
  obtain ⟨he, hb⟩ := update_false_disengage hs1st hs1p ht
  exact ⟨fun s' w h u => rfl, hs1st, hs1st, by rw [he], hb⟩

/-- Witness for C3: an `ENGAGED` detector fed `false` at time 0 and time
1/2 disengages exactly at the mark. -/
theorem C3_disengaged_after_half_second_witness :
    (update_engagement
      (runUpdates (update_engagement { initState ℚ with state := GazeState.ENGAGED } false 0).1
        ([].map fun u => (false, u)))
      false (1/2)).1.state = GazeState.DISENGAGED :=
  (C3_disengaged_after_half_second (fun x : ℚ => x) (fun x : ℚ => x)
    { initState ℚ with state := GazeState.ENGAGED } 0 (1/2) [] rfl rfl (by simp)
    (by simp [DISENGAGEMENT_TIME_THRESHOLD])).2.2.2.1

/-- Claim C6: a `DISENGAGED` detector with a pending timestamp is left
entirely unchanged by an `is_looking=false` call before the 1.0 s
threshold, and an `ENGAGED` detector with a pending timestamp is left
entirely unchanged by an `is_looking=true` call: interrupting the
triggering condition does not clear the debounce timer. -/
theorem C6_pending_survives_interruption {K : Type} :
    (∀ (s : DetectorState K) (t0 t : ℚ), s.state = GazeState.DISENGAGED →
      s.state_change_time = some t0 → t - t0 < ENGAGEMENT_TIME_THRESHOLD →
      (update_engagement s false t).1 = s) ∧
    (∀ (s : DetectorState K) (t0 t : ℚ), s.state = GazeState.ENGAGED →
      s.state_change_time = some t0 →
      (update_engagement s true t).1 = s) := by
  constructor
  · intro s t0 t hst hp _
    simp [update_engagement, handle_looking_away, hst]
  · intro s t0 t hst hp
    simp [update_engagement, handle_looking_at_screen, hst]

/-- Witness for C6 at concrete states and times. -/
theorem C6_pending_survives_interruption_witness :
    (update_engagement { initState ℚ with state_change_time := some 0 } false 0).1 =
      { initState ℚ with state_change_time := some 0 } ∧
    (update_engagement
      { initState ℚ with state := GazeState.ENGAGED, state_change_time := some 0 } true 0).1 =
      { initState ℚ with state := GazeState.ENGAGED, state_change_time := some 0 } :=
  ⟨C6_pending_survives_interruption.1 _ 0 0 rfl rfl
      (by simp [ENGAGEMENT_TIME_THRESHOLD]),
   C6_pending_survives_interruption.2 _ 0 0 rfl rfl⟩

theorem runUpdates_state_cases {K : Type} (calls : List (Bool × ℚ)) :
    ∀ s : DetectorState K, (s.state = GazeState.ENGAGED ∨ s.state = GazeState.DISENGAGED) →
      ((runUpdates s calls).state = GazeState.ENGAGED ∨
       (runUpdates s calls).state = GazeState.DISENGAGED) := by
  induction calls with
  | nil => intro s h; exact h
  | cons c l ih => intro s h; exact ih _ (update_state_cases s c.1 c.2 h)

/-- Claim C7: starting from the initial `DISENGAGED` state, no sequence of
`update_engagement` calls, with any boolean inputs and timestamps, ever
puts the detector in `TRANSITIONING`: the state is always `ENGAGED` or
`DISENGAGED`. -/
theorem C7_transitioning_unreachable (calls : List (Bool × ℚ)) :
    (runUpdates (initState ℚ) calls).state = GazeState.ENGAGED ∨
    (runUpdates (initState ℚ) calls).state = GazeState.DISENGAGED :=
  runUpdates_state_cases calls (initState ℚ) (Or.inr rfl)

/-- Claim C4 (amended): a `process_frame` call with no face detected always
returns `gaze_angle = none` and runs the no-face frame through the state
machine as `is_looking=false`; the returned `engaged` flag is the
post-update state, which is `true` exactly when the detector was already
`ENGAGED` and the 0.5 s disengagement timeout has not yet elapsed (it is
`false` in every other case). -/
theorem C4_no_face_result {K : Type} [LinearOrderedField K] (sqt acs : K → K)
    (s : DetectorState K) (w h : K) (t : ℚ) :
    (process_frame sqt acs s none w h t).2.2 = none ∧
    (process_frame sqt acs s none w h t).1 = (update_engagement s false t).1 ∧
    ((process_frame sqt acs s none w h t).2.1 = true ↔
      s.state = GazeState.ENGAGED ∧
      ∀ t0, s.state_change_time = some t0 → t - t0 < DISENGAGEMENT_TIME_THRESHOLD) := by
  refine ⟨rfl, rfl, ?_⟩
  show (update_engagement s false t).2 = true ↔ _
  rcases hst : s.state with _ | _ | _
  · rcases hp : s.state_change_time with _ | t0
    · simp [update_engagement, handle_looking_away, hst, hp]
    · rcases lt_or_le (t - t0) DISENGAGEMENT_TIME_THRESHOLD with hlt | hge
      · have hc : should_change_state s t false = false := by
          simp only [should_change_state, hp, if_neg]
          simp [not_le.mpr hlt]
        simp [update_engagement, handle_looking_away, hst, hp, hc, hlt]
      · have hc : should_change_state s t false = true := by
          simp only [should_change_state, hp, if_neg]
          simpa using hge
        simp [update_engagement, handle_looking_away, hst, hp, hc, not_lt.mpr hge]
  · simp [update_engagement, handle_looking_away, hst]
  · simp [update_engagement, handle_looking_away, hst]

/-- Counterexample for C4 as stated: a no-face frame fed at time 0 to an
`ENGAGED` detector with no pending timestamp returns `engaged = true`,
not `false`. -/
theorem C4_counterexample :
    (process_frame (fun x : ℚ => x) (fun x : ℚ => x)
      { initState ℚ with state := GazeState.ENGAGED } none 1 1 0).2.1 = true := by
  simp [process_frame, update_engagement, handle_looking_away, initState]

/-- Claim C10: a no-face `process_frame` call leaves both locked flags, both
local offsets, both reference scales, the stored reference rotation and
the gaze history unchanged; only the engagement state and pending
timestamp may change. -/
theorem C10_no_face_frame_effect {K : Type} [LinearOrderedField K] (sqt acs : K → K)
    (s : DetectorState K) (w h : K) (t : ℚ) :
    (process_frame sqt acs s none w h t).1.left_sphere_locked = s.left_sphere_locked ∧
    (process_frame sqt acs s none w h t).1.right_sphere_locked = s.right_sphere_locked ∧
    (process_frame sqt acs s none w h t).1.left_sphere_local_offset = s.left_sphere_local_offset ∧
    (process_frame sqt acs s none w h t).1.right_sphere_local_offset = s.right_sphere_local_offset ∧
    (process_frame sqt acs s none w h t).1.left_calibration_nose_scale = s.left_calibration_nose_scale ∧
    (process_frame sqt acs s none w h t).1.right_calibration_nose_scale = s.right_calibration_nose_scale ∧
    (process_frame sqt acs s none w h t).1.R_ref_nose = s.R_ref_nose ∧
    (process_frame sqt acs s none w h t).1.gaze_history = s.gaze_history := by
  obtain ⟨st, p, hs⟩ := update_shape s false t
  have he : (process_frame sqt acs s none w h t).1 = (update_engagement s false t).1 := rfl
  rw [he, hs]
  exact ⟨rfl, rfl, rfl, rfl, rfl, rfl, rfl, rfl⟩

theorem process_frame_uncalibrated_step {K : Type} [LinearOrderedField K]
    (sqt acs : K → K) (s : DetectorState K) (obs : Option (FaceObs K)) (w h : K)
    (t : ℚ) (hl : s.left_sphere_locked = false) (hst : s.state = GazeState.DISENGAGED) :
    (process_frame sqt acs s obs w h t).2.1 = false ∧
    (process_frame sqt acs s obs w h t).2.2 = none ∧
    (process_frame sqt acs s obs w h t).1.left_sphere_locked = false ∧
    (process_frame sqt acs s obs w h t).1.state = GazeState.DISENGAGED := by
  cases obs with
  | none =>
      obtain ⟨hstate, hflag⟩ := update_false_keeps_disengaged s t hst
      obtain ⟨st, p, hs⟩ := update_shape s false t
      refine ⟨hflag, rfl, ?_, hstate⟩
      show (update_engagement s false t).1.left_sphere_locked = false
      rw [hs]; exact hl
  | some face =>
      set s1 : DetectorState K :=
        { s with R_ref_nose := some (compute_head_pose_R face.eigvecs s.R_ref_nose).2 }
        with hs1
      have hl1 : s1.left_sphere_locked = false := hl
      have hst1 : s1.state = GazeState.DISENGAGED := hst
      have hcond : ¬(s1.left_sphere_locked ∧ s1.right_sphere_locked) := by
        rw [hl1]; simp
      have hframe : process_frame sqt acs s (some face) w h t =
          ((update_engagement s1 false t).1, (update_engagement s1 false t).2, none) := by
        show (if ¬(s1.left_sphere_locked ∧ s1.right_sphere_locked) then _ else _) = _
        rw [if_pos hcond]
        rfl
      obtain ⟨hstate, hflag⟩ := update_false_keeps_disengaged s1 t hst1
      obtain ⟨st, p, hs⟩ := update_shape s1 false t
      rw [hframe]
      refine ⟨hflag, rfl, ?_, hstate⟩
      show (update_engagement s1 false t).1.left_sphere_locked = false
      rw [hs]; exact hl1

theorem runFrames_uncalibrated {K : Type} [LinearOrderedField K] (sqt acs : K → K) :
    ∀ (frames : List (Option (FaceObs K) × K × K × ℚ)) (s : DetectorState K),
      s.left_sphere_locked = false → s.state = GazeState.DISENGAGED →
      (runFrames sqt acs s frames).1.state = GazeState.DISENGAGED ∧
      ∀ out ∈ (runFrames sqt acs s frames).2, out = (false, (none : Option K)) := by
  intro frames
  induction frames with
  | nil =>
      intro s hl hst
      exact ⟨hst, by simp [runFrames]⟩
  | cons f rest ih =>
      intro s hl hst
      obtain ⟨h1, h2, h3, h4⟩ :=
        process_frame_uncalibrated_step sqt acs s f.1 f.2.1 f.2.2.1 f.2.2.2 hl hst
      obtain ⟨ih1, ih2⟩ :=
        ih (process_frame sqt acs s f.1 f.2.1 f.2.2.1 f.2.2.2).1 h3 h4
      refine ⟨ih1, ?_⟩
      intro out hout
      simp only [runFrames, List.mem_cons] at hout
      rcases hout with hout | hout
      · rw [hout, h1, h2]
      · exact ih2 out hout

/-- Claim C5: a detector on which `calibrate` has never been invoked (so
both locked flags are still `false`, as initialized) returns
`engaged = false` and `gaze_angle = none` on every `process_frame` call,
with or without a face present, and its state never leaves
`DISENGAGED` — in particular it never reaches `ENGAGED`. -/
theorem C5_uncalibrated_always_disengaged {K : Type} [LinearOrderedField K]
    (sqt acs : K → K) (frames : List (Option (FaceObs K) × K × K × ℚ)) :
    (runFrames sqt acs (initState K) frames).1.state = GazeState.DISENGAGED ∧
    ∀ out ∈ (runFrames sqt acs (initState K) frames).2, out = (false, (none : Option K)) :=
  runFrames_uncalibrated sqt acs frames (initState K) rfl rfl

/-- Witness for C5: the single recorded output of a one-no-face-frame run
on a fresh detector is `(false, none)`. -/
theorem C5_uncalibrated_always_disengaged_witness :
    (false, (none : Option ℚ)) ∈
      (runFrames (fun x : ℚ => x) (fun x : ℚ => x) (initState ℚ) [(none, 1, 1, 0)]).2 ∧
    (false, (none : Option ℚ)) = (false, (none : Option ℚ)) := by
  have hmem : (false, (none : Option ℚ)) ∈
      (runFrames (fun x : ℚ => x) (fun x : ℚ => x) (initState ℚ) [(none, 1, 1, 0)]).2 := by
    simp [runFrames, process_frame, update_engagement, handle_looking_away, initState]
  exact ⟨hmem,
    (C5_uncalibrated_always_disengaged (fun x : ℚ => x) (fun x : ℚ => x)
      [(none, 1, 1, 0)]).2 _ hmem⟩

/-- Claim C8: `calibrate` writes the calibration fields (both locked flags,
both local offsets, both reference scales) as a pure function of its
inputs: any two detectors — in particular a previously calibrated one and
a fresh one — end up with identical calibration fields when calibrated
with the same landmarks, head pose and frame dimensions, and a second
identical calibration leaves those fields unchanged. -/
theorem C8_calibrate_overwrites_idempotent {K : Type} [LinearOrderedField K]
    (sqt : K → K) (s s' : DetectorState K) (face : FaceObs K)
    (head_center : Vec3 K) (R_final : Mat3 K) (nose_points_3d : List (Vec3 K))
    (w h : K) :
    calibFields (calibrate sqt s face head_center R_final nose_points_3d w h) =
      calibFields (calibrate sqt s' face head_center R_final nose_points_3d w h) ∧
    calibFields
        (calibrate sqt (calibrate sqt s face head_center R_final nose_points_3d w h)
          face head_center R_final nose_points_3d w h) =
      calibFields (calibrate sqt s face head_center R_final nose_points_3d w h) :=
  ⟨rfl, rfl⟩

theorem pushGaze_length_le {K : Type} [LinearOrderedField K] (hist : List (Vec3 K))
    (v : Vec3 K) (hh : hist.length ≤ 10) : (pushGaze hist v).length ≤ 10 := by
  unfold pushGaze
  split
  · simp only [List.length_append, List.length_cons, List.length_nil]
    omega
  · next hge =>
    simp only [List.length_append, List.length_tail, List.length_cons, List.length_nil]
    omega

theorem foldl_pushGaze_length {K : Type} [LinearOrderedField K]
    (ops : List (Vec3 K)) :
    ∀ acc : List (Vec3 K), acc.length ≤ 10 → (ops.foldl pushGaze acc).length ≤ 10 := by
  induction ops with
  | nil => intro acc hacc; exact hacc
  | cons v l ih => intro acc hacc; exact ih _ (pushGaze_length_le acc v hacc)

theorem dot3_self_pos (v : Vec3 ℝ) (hv : v ≠ 0) : 0 < dot3 v v := by
  rcases v with ⟨a, b, c⟩
  have h0 : (0 : ℝ) ≤ a * a + b * b + c * c :=
    add_nonneg (add_nonneg (mul_self_nonneg a) (mul_self_nonneg b)) (mul_self_nonneg c)
  rcases h0.lt_or_eq with hlt | heq
  · simpa [dot3] using hlt
  · exfalso
    apply hv
    have haa : a * a = 0 := by nlinarith [mul_self_nonneg b, mul_self_nonneg c]
    have hbb : b * b = 0 := by nlinarith [mul_self_nonneg a, mul_self_nonneg c]
    have hcc : c * c = 0 := by nlinarith [mul_self_nonneg a, mul_self_nonneg b]
    simp [mul_self_eq_zero.mp haa, mul_self_eq_zero.mp hbb, mul_self_eq_zero.mp hcc]

theorem norm_normalize3 (v : Vec3 ℝ) (hv : v ≠ 0) :
    Real.sqrt (dot3 (normalize3 Real.sqrt v) (normalize3 Real.sqrt v)) = 1 := by
  have hd := dot3_self_pos v hv
  have hsq : Real.sqrt (dot3 v v) ^ 2 = dot3 v v := Real.sq_sqrt hd.le
  have hdot : dot3 (normalize3 Real.sqrt v) (normalize3 Real.sqrt v) =
      (1 / Real.sqrt (dot3 v v)) ^ 2 * dot3 v v := by
    rcases v with ⟨a, b, c⟩
    simp only [normalize3, Vec3.smul_mk, dot3_mk]
    ring
  rw [hdot, one_div, inv_pow, hsq, inv_mul_cancel₀ hd.ne']
  exact Real.sqrt_one

/-- Claim C9: the gaze history, grown from empty by `deque(maxlen=10)`
appends, never exceeds 10 entries; an append onto a full history evicts
the oldest entry; and the smoothed gaze vector produced by
`_compute_gaze_direction` has unit Euclidean length whenever the history
mean it normalizes is nonzero. -/
theorem C9_history_bounded_smoothed_unit :
    (∀ ops : List (Vec3 ℚ), (ops.foldl pushGaze []).length ≤ 10) ∧
    (∀ (hist : List (Vec3 ℚ)) (v : Vec3 ℚ), hist.length = 10 →
      pushGaze hist v = hist.tail ++ [v]) ∧
    (∀ (hist : List (Vec3 ℝ)) (sl sr il ir : Vec3 ℝ),
      vmean (compute_gaze_direction Real.sqrt hist sl sr il ir).1 ≠ 0 →
      Real.sqrt (dot3 (compute_gaze_direction Real.sqrt hist sl sr il ir).2.1
        (compute_gaze_direction Real.sqrt hist sl sr il ir).2.1) = 1) := by
  refine ⟨fun ops => foldl_pushGaze_length ops [] (by simp), ?_, ?_⟩
  · intro hist v hlen
    simp [pushGaze, hlen]
  · intro hist sl sr il ir hne
    exact norm_normalize3 _ hne

/-- Witness for C9: a full history of ten zero vectors evicts its head on
append, and a concrete frame looking along `+z` yields a unit smoothed
gaze. -/
theorem C9_history_bounded_smoothed_unit_witness :
    ((List.replicate 10 (0 : Vec3 ℚ)).length = 10 ∧
      pushGaze (List.replicate 10 (0 : Vec3 ℚ)) 0 =
        (List.replicate 10 (0 : Vec3 ℚ)).tail ++ [0]) ∧
    (vmean (compute_gaze_direction Real.sqrt [] 0 0 ⟨0, 0, 1⟩ ⟨0, 0, 1⟩).1 ≠ 0 ∧
      Real.sqrt (dot3 (compute_gaze_direction Real.sqrt [] 0 0 ⟨0, 0, 1⟩ ⟨0, 0, 1⟩).2.1
        (compute_gaze_direction Real.sqrt [] 0 0 ⟨0, 0, 1⟩ ⟨0, 0, 1⟩).2.1) = 1) := by
  have hlen : (List.replicate 10 (0 : Vec3 ℚ)).length = 10 := by simp
  have e1 : (⟨0, 0, 1⟩ : Vec3 ℝ) - 0 = ⟨0, 0, 1⟩ := by simp
  have e2 : normalize3 Real.sqrt (⟨0, 0, 1⟩ : Vec3 ℝ) = ⟨0, 0, 1⟩ := by
    unfold normalize3 dot3
    norm_num [Real.sqrt_one]
  have e3 : (1/2 : ℝ) • ((⟨0, 0, 1⟩ : Vec3 ℝ) + ⟨0, 0, 1⟩) = ⟨0, 0, 1⟩ := by
    norm_num
  have e5 : pushGaze ([] : List (Vec3 ℝ)) ⟨0, 0, 1⟩ = [⟨0, 0, 1⟩] := by
    simp [pushGaze]
  have e6 : vmean [(⟨0, 0, 1⟩ : Vec3 ℝ)] = ⟨0, 0, 1⟩ := by
    simp [vmean, vsum]
  have e4 : compute_gaze_direction Real.sqrt [] 0 0 (⟨0, 0, 1⟩ : Vec3 ℝ) ⟨0, 0, 1⟩ =
      ([⟨0, 0, 1⟩], ⟨0, 0, 1⟩, ⟨0, 0, 1⟩, ⟨0, 0, 1⟩) := by
    simp only [compute_gaze_direction, e1, e2, e3, e5, e6]
  have hne : vmean (compute_gaze_direction Real.sqrt [] 0 0 (⟨0, 0, 1⟩ : Vec3 ℝ) ⟨0, 0, 1⟩).1 ≠ 0 := by
    rw [e4]
    show vmean [(⟨0, 0, 1⟩ : Vec3 ℝ)] ≠ 0
    rw [e6]
    simp
  exact ⟨⟨hlen, C9_history_bounded_smoothed_unit.2.1 _ 0 hlen⟩,
    ⟨hne, C9_history_bounded_smoothed_unit.2.2 [] 0 0 ⟨0, 0, 1⟩ ⟨0, 0, 1⟩ hne⟩⟩

end GazeTrack
